import Mathlib

/-!
Verification of the CommComms Identity & Access Control Core.

This file gives a shallow embedding, in Lean 4, of the Go source of the
identity subsystem (invite validation, registration, login, token refresh,
JWT validation, the token-bucket rate limiter and the reputation ledger),
and proves or refutes the specification claims about it.

Conventions of the embedding:
- Go `error` results become `Except Err α`; the package-level sentinel
  errors become constructors of the closed inductive `Err`, and
  `fmt.Errorf("...: %w", err)` becomes `Err.wrapped msg err`.
- Repository interfaces (user store, invite store, revocation store)
  become function-valued fields of explicit "world" structures; stateful
  stores (revocation list, reputation ledger, rate-limiter buckets) are
  threaded explicitly.
- `time.Time` values are modelled as integers (Unix nanoseconds);
  `time.Now().After(x)` at instant `now` is `now > x`.
- Go `int` is modelled as `Int` where values can be negative (token
  counts, points) and as `Nat` for construction parameters that are
  nonnegative in every use in the source (rates, intervals, instants).
-/

namespace CommComms

/-- Closed enumeration of the identity-package sentinel errors
(middleware_test.go second section, the package errors file), plus
`wrapped` for `fmt.Errorf("...: %w", err)` and `storeUnreachable`
standing for an arbitrary infrastructure failure injected by a store. -/
inductive Err where
  | userNotFound
  | emailAlreadyRegistered
  | passwordTooShort
  | passwordTooWeak
  | handleInvalidChars
  | handleAlreadyTaken
  | handleTooLong
  | handleTooShort
  | invalidEmailFormat
  | inviteNotFound
  | invalidInviteCode
  | inviteExpired
  | inviteExhausted
  | invalidCredentials
  | tokenRevoked
  | tokenExpired
  | tokenInvalid
  | invalidEventType
  | duplicateEvent
  | invalidPointsValue
  | selfReputation
  | communityNotFound
  | storeUnreachable
  | wrapped (context : String) (cause : Err)
  deriving Repr, DecidableEq

/-- identity.User (service.go lines 18-24). -/
structure User where
  id : String
  email : String
  handle : String
  passwordHash : String
  reputation : Int
  deriving Repr, DecidableEq

/-- identity.Invite (service.go lines 26-33); `expiresAt` in Unix nanoseconds. -/
structure Invite where
  code : String
  maxUses : Int
  usedCount : Int
  expiresAt : Int
  communityID : String
  creatorID : String
  deriving Repr, DecidableEq

/-- identity.Community (invite.go). -/
structure Community where
  id : String
  name : String
  deriving Repr, DecidableEq

/-- identity.AuthResponse (service.go lines 65-68). -/
structure AuthResponse where
  accessToken : String
  refreshToken : String
  deriving Repr, DecidableEq

/-- InviteService.ValidateInvite, first revision (invite.go lines 64-76):
looks up the code, rejects expired invites, then rejects as exhausted
whenever `UsedCount >= MaxUses` with NO `MaxUses > 0` guard, and finally
resolves the community. Repository errors are propagated as returned. -/
def ValidateInviteV1 (findByCode : String → Except Err Invite)
    (findCommunity : String → Except Err Community)
    (now : Int) (code : String) : Except Err Community :=
  match findByCode code with
  | .error e => .error e
  | .ok invite =>
    if now > invite.expiresAt then .error .inviteExpired
    else if invite.usedCount ≥ invite.maxUses then .error .inviteExhausted
    else findCommunity invite.communityID

/-- InviteService.ValidateInvite, current revision (invite.go lines 156-169):
any lookup failure becomes `ErrInviteNotFound`, expiry is checked, and the
exhaustion check carries the `MaxUses > 0` guard (`MaxUses` of 0 means
unlimited uses, per the source comment). -/
def ValidateInvite (findByCode : String → Except Err Invite)
    (findCommunity : String → Except Err Community)
    (now : Int) (code : String) : Except Err Community :=
  match findByCode code with
  | .error _ => .error .inviteNotFound
  | .ok invite =>
    if now > invite.expiresAt then .error .inviteExpired
    else if invite.maxUses > 0 ∧ invite.usedCount ≥ invite.maxUses then
      .error .inviteExhausted
    else findCommunity invite.communityID

/-- Character class `[a-zA-Z0-9._%+-]` of the local part of emailRegex. -/
def isEmailLocalChar (c : Char) : Bool :=
  c.isAlphanum || c = '.' || c = '_' || c = '%' || c = '+' || c = '-'

/-- Character class `[a-zA-Z0-9.-]` of the domain part of emailRegex. -/
def isEmailDomainChar (c : Char) : Bool :=
  c.isAlphanum || c = '.' || c = '-'

/-- Domain side of emailRegex: `[a-zA-Z0-9.-]+\.[a-zA-Z]{2,}$`. Since the
TLD class is purely alphabetic, a match must split at the LAST dot: the
maximal alphabetic suffix is the TLD (length at least 2), it is preceded
by a dot, and the nonempty remainder lies in the domain class. -/
def emailDomainOk (d : List Char) : Bool :=
  let rev := d.reverse
  let tld := rev.takeWhile (fun c => c.isAlpha)
  let rest := rev.dropWhile (fun c => c.isAlpha)
  decide (tld.length ≥ 2) &&
    (match rest with
     | '.' :: before => !before.isEmpty && before.all isEmailDomainChar
     | _ => false)

/-- Split a character list on every occurrence of a separator
(the pieces, in order; n separators give n+1 pieces). -/
def splitOnChar (sep : Char) : List Char → List (List Char)
  | [] => [[]]
  | c :: rest =>
    match splitOnChar sep rest with
    | [] => if c = sep then [[], []] else [[c]]
    | h :: t => if c = sep then [] :: h :: t else (c :: h) :: t

/-- emailRegex of service.go line 15:
`^[a-zA-Z0-9._%+-]+@[a-zA-Z0-9.-]+\.[a-zA-Z]{2,}$`. Neither class
contains `@`, so a match has exactly one `@`, splitting the string into
a local part and a domain part. -/
def emailRegexMatch (s : String) : Bool :=
  match splitOnChar '@' s.data with
  | [l, d] => (!l.isEmpty && l.all isEmailLocalChar) && emailDomainOk d
  | _ => false

/-- handleRegex of service.go line 14: `^[a-zA-Z0-9_]+$`. -/
def handleRegexMatch (s : String) : Bool :=
  !s.isEmpty && s.data.all (fun c => c.isAlphanum || c = '_')

/-- Service.validateEmail (service.go lines 182-187). -/
def validateEmail (email : String) : Except Err Unit :=
  if !emailRegexMatch email then .error .invalidEmailFormat else .ok ()

/-- Service.validatePassword (service.go lines 189-194): the ONLY check is
the length bound; no letter/digit strength check is performed. -/
def validatePassword (password : String) : Except Err Unit :=
  if password.length < 8 then .error .passwordTooShort else .ok ()

/-- Service.validateHandle (service.go lines 196-207). -/
def validateHandle (handle : String) : Except Err Unit :=
  if handle.length < 3 then .error .handleTooShort
  else if handle.length > 20 then .error .handleTooLong
  else if !handleRegexMatch handle then .error .handleInvalidChars
  else .ok ()

/-- The collaborators of Service.Register as function-valued fields.
A store call that returns a Go `(nil, err)` pair is `.error e`; a call
returning a value with nil error is `.ok v` (no store in the repository
returns `(nil, nil)`). `newID` stands for `uuid.New().String()`. -/
structure RegisterWorld where
  findInviteByCode : String → Except Err Invite
  incrementUsage : String → Except Err Unit
  findByEmail : String → Except Err User
  findByHandle : String → Except Err User
  hash : String → Except Err String
  createUser : User → Except Err Unit
  newID : String

/-- Service.isHandleAvailable (service.go lines 209-216): ANY error from
FindByHandle — not-found or infrastructure alike — is treated as
"handle available" (source comment: assume not found means available). -/
def isHandleAvailable (w : RegisterWorld) (handle : String) : Except Err Bool :=
  match w.findByHandle handle with
  | .error _ => .ok true
  | .ok _ => .ok false

/-- Service.Register (service.go lines 107-180), step for step: invite
lookup (`ErrInvalidInviteCode` on any failure), expiry, guarded
exhaustion check, email/password/handle validation, email uniqueness
(`err == nil && existingUser != nil`; any FindByEmail error means the
email is treated as free), handle availability, hash, create, and a
best-effort IncrementUsage whose failure is ignored. -/
def Register (w : RegisterWorld) (now : Int)
    (email password handle inviteCode : String) : Except Err User :=
  match w.findInviteByCode inviteCode with
  | .error _ => .error .invalidInviteCode
  | .ok invite =>
    if now > invite.expiresAt then .error .inviteExpired
    else if invite.maxUses > 0 ∧ invite.usedCount ≥ invite.maxUses then
      .error .inviteExhausted
    else match validateEmail email with
    | .error e => .error e
    | .ok _ =>
      match validatePassword password with
      | .error e => .error e
      | .ok _ =>
        match validateHandle handle with
        | .error e => .error e
        | .ok _ =>
          match w.findByEmail email with
          | .ok _ => .error .emailAlreadyRegistered
          | .error _ =>
            match isHandleAvailable w handle with
            | .error e => .error (.wrapped "failed to check handle availability" e)
            | .ok false => .error .handleAlreadyTaken
            | .ok true =>
              match w.hash password with
              | .error e => .error (.wrapped "failed to hash password" e)
              | .ok hashedPassword =>
                let user : User := ⟨w.newID, email, handle, hashedPassword, 0⟩
                match w.createUser user with
                | .error e => .error (.wrapped "failed to create user" e)
                | .ok _ =>
                  match w.incrementUsage inviteCode with
                  | .error _ => .ok user
                  | .ok _ => .ok user

/-- The collaborators of Service.Login. -/
structure LoginWorld where
  findByEmail : String → Except Err User
  compare : String → String → Except Err Unit
  genAccess : String → Except Err String
  genRefresh : String → Except Err String

/-- Service.Login (service.go lines 218-239), instrumented with the list
of `(hashedPassword, password)` pairs on which `hasher.Compare` is
invoked. When FindByEmail fails the source returns
`ErrInvalidCredentials` IMMEDIATELY, performing no comparison at all. -/
def Login (w : LoginWorld) (email password : String) :
    Except Err AuthResponse × List (String × String) :=
  match w.findByEmail email with
  | .error _ => (.error .invalidCredentials, [])
  | .ok user =>
    let trace := [(user.passwordHash, password)]
    match w.compare user.passwordHash password with
    | .error _ => (.error .invalidCredentials, trace)
    | .ok _ =>
      match w.genAccess user.id with
      | .error e => (.error (.wrapped "failed to generate access token" e), trace)
      | .ok a =>
        match w.genRefresh user.id with
        | .error e => (.error (.wrapped "failed to generate refresh token" e), trace)
        | .ok r => (.ok ⟨a, r⟩, trace)

/-- The refresh-token revocation store (RefreshTokenRepository):
the set of revoked tokens as a list, plus injectable faults for the two
operations so that infrastructure failures can be stated. -/
structure RefreshStore where
  revoked : List String
  isRevokedErr : Option Err
  revokeErr : Option Err
  deriving Repr, DecidableEq

/-- RefreshTokenRepository.IsRevoked. -/
def isRevokedOp (st : RefreshStore) (tok : String) : Except Err Bool :=
  match st.isRevokedErr with
  | some e => .error e
  | none => .ok (decide (tok ∈ st.revoked))

/-- RefreshTokenRepository.Revoke. -/
def revokeOp (st : RefreshStore) (tok : String) : Except Err RefreshStore :=
  match st.revokeErr with
  | some e => .error e
  | none => .ok { st with revoked := tok :: st.revoked }

/-- The stateless collaborators of Service.RefreshTokens. -/
structure RefreshWorld where
  validateRefreshToken : String → Except Err String
  genAccess : String → Except Err String
  genRefresh : String → Except Err String

/-- Service.RefreshTokens (service.go lines 241-272): validate the
presented token, consult the revocation store (`ErrTokenRevoked` if
dead), revoke the presented token BEFORE generating the new pair, and
propagate wrapped errors from every store failure. -/
def RefreshTokens (w : RefreshWorld) (st : RefreshStore) (token : String) :
    Except Err AuthResponse × RefreshStore :=
  match w.validateRefreshToken token with
  | .error e => (.error e, st)
  | .ok userID =>
    match isRevokedOp st token with
    | .error e => (.error (.wrapped "failed to check token revocation" e), st)
    | .ok true => (.error .tokenRevoked, st)
    | .ok false =>
      match revokeOp st token with
      | .error e => (.error (.wrapped "failed to revoke old token" e), st)
      | .ok st2 =>
        match w.genAccess userID with
        | .error e => (.error (.wrapped "failed to generate access token" e), st2)
        | .ok a =>
          match w.genRefresh userID with
          | .error e => (.error (.wrapped "failed to generate refresh token" e), st2)
          | .ok r => (.ok ⟨a, r⟩, st2)

/-! ## auth package: JWT validation (jwt.go) -/

/-- The error strings of JWTService.ValidateToken (jwt.go lines 62-113),
one constructor per distinct `errors.New` message. -/
inductive JWTErr where
  | tokenExpired
  | tokenInvalid
  | invalidTokenClaims
  | invalidUserIdClaim
  | invalidExpirationClaim
  | invalidIssuedAtClaim
  deriving Repr, DecidableEq

/-- auth.Claims (jwt.go lines 13-18); times in Unix seconds. -/
structure JWTClaims where
  userID : String
  expiresAt : Int
  issuedAt : Int
  tokenID : String
  deriving Repr, DecidableEq

/-- Abstraction of the outcome of `jwt.Parse` (golang-jwt v5, default
options) on an input string against the service secret, carrying exactly
the facts ValidateToken branches on: structural well-formedness, the
HMAC-family check of the keyfunc, signature validity, whether the `exp`
claim decodes to a numeric date (v5 rejects the token at parse time
otherwise), the exp/nbf validation outcomes, whether `token.Claims` is a
`MapClaims` (always true for `jwt.Parse`; the source still checks),
`claims["user_id"]` when present as a string, whether `GetIssuedAt`
succeeds, and the decoded payload values. -/
structure TokenData where
  wellFormed : Bool
  algIsHMAC : Bool
  signatureValid : Bool
  expValid : Bool
  expired : Bool
  notYetValid : Bool
  claimsAreMap : Bool
  userIdString : Option String
  iatValid : Bool
  expUnix : Int
  iatUnix : Int
  jti : Option String
  deriving Repr, DecidableEq

/-- JWTService.ValidateToken (jwt.go lines 62-113). Parse/keyfunc/
signature failures and non-expiry claim-validation failures collapse to
"invalid token"; `errors.Is(err, jwt.ErrTokenExpired)` gives
"token expired"; the subsequent claim extractions each return their own
distinct error message. -/
def ValidateToken (t : TokenData) : Except JWTErr JWTClaims :=
  if !t.wellFormed then .error .tokenInvalid
  else if !t.algIsHMAC then .error .tokenInvalid
  else if !t.signatureValid then .error .tokenInvalid
  else if !t.expValid then .error .tokenInvalid
  else if t.expired then .error .tokenExpired
  else if t.notYetValid then .error .tokenInvalid
  else if !t.claimsAreMap then .error .invalidTokenClaims
  else
    match t.userIdString with
    | none => .error .invalidUserIdClaim
    | some uid =>
      if uid = "" then .error .invalidUserIdClaim
      else if !t.expValid then .error .invalidExpirationClaim
      else if !t.iatValid then .error .invalidIssuedAtClaim
      else .ok ⟨uid, t.expUnix, t.iatUnix, t.jti.getD ""⟩

/-! ## auth package: token-bucket rate limiter (ratelimit.go) -/

/-- auth.tokenBucket (ratelimit.go lines 19-22); `lastCheck` in Unix
nanoseconds. The token count is an `Int`: the fresh-bucket branch stores
`capacity - 1`, which is negative when the capacity is 0. -/
structure Bucket where
  tokens : Int
  lastCheck : Nat
  deriving Repr, DecidableEq

/-- auth.RateLimiter (ratelimit.go lines 11-17); the bucket map is an
association list keyed by the client key. `rate`, `interval` and
`capacity` are the nonnegative construction parameters (every limiter in
the source is built with a nonnegative rate and a positive interval). -/
structure RateLimiter where
  buckets : List (String × Bucket)
  rate : Nat
  interval : Nat
  capacity : Nat
  deriving Repr, DecidableEq

/-- Go map assignment `m[key] = b` on the association list. -/
def mapSet (bs : List (String × Bucket)) (key : String) (b : Bucket) :
    List (String × Bucket) :=
  match bs with
  | [] => [(key, b)]
  | (k, v) :: rest =>
    if k = key then (k, b) :: rest else (k, v) :: mapSet rest key b

/-- NewRateLimiter (ratelimit.go lines 25-37): empty bucket map and
`capacity = rate * 2` (burst up to twice the rate). -/
def NewRateLimiter (rate : Nat) (interval : Nat) : RateLimiter :=
  ⟨[], rate, interval, rate * 2⟩

/-- RateLimiter.Allow (ratelimit.go lines 57-87). First sight of a key
creates a bucket holding `capacity - 1` tokens and allows; otherwise
`int(elapsed / interval) * rate` tokens are refilled (capped at
capacity), `lastCheck` is advanced, and one token is consumed when any
remain. -/
def Allow (rl : RateLimiter) (key : String) (now : Nat) : Bool × RateLimiter :=
  match rl.buckets.lookup key with
  | none =>
    (true, { rl with buckets := mapSet rl.buckets key ⟨(rl.capacity : Int) - 1, now⟩ })
  | some b =>
    let elapsed := now - b.lastCheck
    let tokensToAdd : Int := ((elapsed / rl.interval) * rl.rate : Nat)
    let t1 := b.tokens + tokensToAdd
    let t2 := if t1 > (rl.capacity : Int) then (rl.capacity : Int) else t1
    if t2 > 0 then
      (true, { rl with buckets := mapSet rl.buckets key ⟨t2 - 1, now⟩ })
    else
      (false, { rl with buckets := mapSet rl.buckets key ⟨t2, now⟩ })

/-- Iterated Allow: `n` consecutive calls for the same key at the same
instant, returning the call results in order and the final state. -/
def allowRun (rl : RateLimiter) (key : String) (now : Nat) : Nat → List Bool × RateLimiter
  | 0 => ([], rl)
  | n + 1 =>
    let s := Allow rl key now
    let r := allowRun s.2 key now n
    (s.1 :: r.1, r.2)

/-- One minute in the nanosecond time scale (`time.Minute`). -/
def nsPerMinute : Nat := 60000000000

/-- One hour in the nanosecond time scale (`time.Hour`). -/
def nsPerHour : Nat := 60 * nsPerMinute

/-- The body of one tick of RateLimiter.cleanup (ratelimit.go lines
39-54): delete every bucket with `now.Sub(bucket.lastCheck) >
10*time.Minute` — a HARD-CODED ten minutes, regardless of the limiter's
configured interval — keeping exactly the buckets idle at most ten
minutes. -/
def cleanupSweep (rl : RateLimiter) (now : Nat) : RateLimiter :=
  { rl with buckets := rl.buckets.filter (fun kb => now - kb.2.lastCheck ≤ 10 * nsPerMinute) }

/-! ## identity package: reputation ledger (part_009, errors file) -/

/-- identity.ReputationEvent (part_009 lines 10-17), without the
store-assigned `ID` and timestamp, which no claim observes. -/
structure ReputationEvent where
  userID : String
  eventType : String
  points : Int
  refID : String
  deriving Repr, DecidableEq

/-- The reputation store, modelled from the spec as the append-only list
of recorded events (the repository implementation behind the
ReputationRepository interface is not part of the source tree). -/
abbrev RepStore := List ReputationEvent

/-- Modelled from the spec: ReputationRepository.HasRecordedEvent — does
an event with this `(user, eventType, refID)` triple exist? (Only the
interface declaration is in the source.) -/
def HasRecordedEvent (st : RepStore) (userID eventType refID : String) : Bool :=
  st.any fun e => decide (e.userID = userID ∧ e.eventType = eventType ∧ e.refID = refID)

/-- Modelled from the spec: ReputationRepository.GetReputation — the sum
of the points of all events of the user (the spec: reputation score is
the sum of all events for a user, never decayed). -/
def GetReputation (st : RepStore) (userID : String) : Int :=
  (st.filter (fun e => decide (e.userID = userID))).foldl (fun acc e => acc + e.points) 0

/-- identity.ReputationPointLimits (errors file, middleware_test.go
second section): the closed per-type point ranges. -/
def ReputationPointLimits (eventType : String) : Option (Int × Int) :=
  if eventType = "message_posted" then some (1, 5)
  else if eventType = "message_upvoted" then some (1, 10)
  else if eventType = "message_downvoted" then some (-10, -1)
  else if eventType = "invite_used" then some (5, 20)
  else if eventType = "reported_abuse" then some (-50, -10)
  else if eventType = "moderator_action" then some (-100, 100)
  else none

/-- identity.ValidateReputationEvent (errors file): unknown type gives
`ErrInvalidEventType`; points outside the closed range give
`ErrInvalidPointsValue`. -/
def ValidateReputationEvent (eventType : String) (points : Int) : Except Err Unit :=
  match ReputationPointLimits eventType with
  | none => .error .invalidEventType
  | some lim =>
    if points < lim.1 ∨ points > lim.2 then .error .invalidPointsValue else .ok ()

/-- ReputationService.RecordReputationEvent (part_009 lines 47-82):
self-reputation is rejected except for the moderator-action type, the
type/points pair is validated, a non-empty `refID` triggers the
duplicate check (`ErrDuplicateEvent` when the triple exists, appending
nothing), and otherwise the event is appended to the ledger. -/
def RecordReputationEvent (st : RepStore) (callerID targetUserID eventType : String)
    (points : Int) (refID : String) : Except Err Unit × RepStore :=
  if callerID = targetUserID ∧ eventType ≠ "moderator_action" then
    (.error .selfReputation, st)
  else
    match ValidateReputationEvent eventType points with
    | .error e => (.error e, st)
    | .ok _ =>
      if refID ≠ "" ∧ HasRecordedEvent st targetUserID eventType refID then
        (.error .duplicateEvent, st)
      else
        (.ok (), st ++ [⟨targetUserID, eventType, points, refID⟩])

/-! ## Concrete stores and worlds used to evaluate the code at
specific inputs (counterexamples and witnesses). -/

/-- An unexpired invite with `MaxUses = 0` (unlimited per the schema
comment `max_uses INTEGER -- NULL = unlimited`, the handler tests and
the current ValidateInvite revision) and `UsedCount = 0`. -/
def unlimitedInvite : Invite :=
  { code := "UNLIMITED_CODE", maxUses := 0, usedCount := 0, expiresAt := 100,
    communityID := "community-123", creatorID := "creator-456" }

/-- An invite store holding exactly `unlimitedInvite`. -/
def inviteStore0 : String → Except Err Invite := fun c =>
  if c = "UNLIMITED_CODE" then .ok unlimitedInvite else .error .inviteNotFound

/-- A community store holding the community of `unlimitedInvite`. -/
def communityStore0 : String → Except Err Community := fun i =>
  if i = "community-123" then .ok ⟨"community-123", "Test Community"⟩
  else .error .communityNotFound

/-- A registration world whose stores are healthy and empty apart from
`unlimitedInvite`. -/
def regWorld0 : RegisterWorld :=
  { findInviteByCode := inviteStore0
    incrementUsage := fun _ => .ok ()
    findByEmail := fun _ => .error .userNotFound
    findByHandle := fun _ => .error .userNotFound
    hash := fun _ => .ok "hashed_password"
    createUser := fun _ => .ok ()
    newID := "user-1" }

/-- A login world with no users at all. -/
def loginWorldNoUser : LoginWorld :=
  { findByEmail := fun _ => .error .userNotFound
    compare := fun _ _ => .error .invalidCredentials
    genAccess := fun _ => .ok "access_token_abc"
    genRefresh := fun _ => .ok "refresh_token_xyz" }

/-- A login world holding one user whose stored hash matches no
password (`Compare` always fails). -/
def loginWorldWrongPw : LoginWorld :=
  { findByEmail := fun e =>
      if e = "user@example.com" then
        .ok ⟨"user-123", "user@example.com", "testuser", "hashed_password", 0⟩
      else .error .userNotFound
    compare := fun _ _ => .error .invalidCredentials
    genAccess := fun _ => .ok "access_token_abc"
    genRefresh := fun _ => .ok "refresh_token_xyz" }

/-- A valid, unexpired, non-exhausted invite with a use limit. -/
def limitedInvite : Invite :=
  { code := "LIMITED_CODE", maxUses := 10, usedCount := 0, expiresAt := 100,
    communityID := "community-123", creatorID := "creator-456" }

/-- A registration world whose user store is UNREACHABLE: both
FindByEmail and FindByHandle fail with an infrastructure error. -/
def regWorldUnreachable : RegisterWorld :=
  { findInviteByCode := fun c =>
      if c = "LIMITED_CODE" then .ok limitedInvite else .error .inviteNotFound
    incrementUsage := fun _ => .ok ()
    findByEmail := fun _ => .error .storeUnreachable
    findByHandle := fun _ => .error .storeUnreachable
    hash := fun _ => .ok "hashed_password"
    createUser := fun _ => .ok ()
    newID := "user-9" }

/-- As `regWorldUnreachable`, but the password hasher also fails. -/
def regWorldHashFail : RegisterWorld :=
  { regWorldUnreachable with hash := fun _ => .error .storeUnreachable }

/-- A refresh world whose validator accepts every token as user-123 and
whose generators succeed deterministically. -/
def refreshWorld0 : RefreshWorld :=
  { validateRefreshToken := fun _ => .ok "user-123"
    genAccess := fun _ => .ok "new_access_token"
    genRefresh := fun _ => .ok "new_refresh_token" }

/-- A healthy, empty revocation store. -/
def refreshStore0 : RefreshStore := ⟨[], none, none⟩

/-- A revocation store whose Revoke operation fails. -/
def refreshStoreRevokeFail : RefreshStore := ⟨[], none, some .storeUnreachable⟩

/-- A structurally valid, correctly signed, unexpired token whose
payload carries NO `user_id` claim. -/
def signedNoUserId : TokenData :=
  { wellFormed := true, algIsHMAC := true, signatureValid := true,
    expValid := true, expired := false, notYetValid := false,
    claimsAreMap := true, userIdString := none, iatValid := true,
    expUnix := 9999, iatUnix := 0, jti := none }

/-- A garbage token: not even structurally a JWT. -/
def malformedToken : TokenData :=
  { wellFormed := false, algIsHMAC := false, signatureValid := false,
    expValid := false, expired := false, notYetValid := false,
    claimsAreMap := false, userIdString := none, iatValid := false,
    expUnix := 0, iatUnix := 0, jti := none }

/-- A limiter configured with a ONE-HOUR interval (as the register
limiter is) holding one bucket idle for twenty minutes at `now =
20*nsPerMinute`. -/
def hourLimiterIdle : RateLimiter :=
  ⟨[("1.2.3.4", ⟨5, 0⟩)], 5, nsPerHour, 10⟩

/-! ## Helper lemmas on the bucket map -/

theorem lookup_mapSet_self (bs : List (String × Bucket)) (k : String) (b : Bucket) :
    (mapSet bs k b).lookup k = some b := by
  induction bs with
  | nil => simp [mapSet, List.lookup]
  | cons kv rest ih =>
    obtain ⟨k1, v1⟩ := kv
    by_cases h : k1 = k
    · subst h
      simp [mapSet, List.lookup]
    · have hbeq : (k == k1) = false := beq_eq_false_iff_ne.mpr (Ne.symm h)
      simp [mapSet, h, List.lookup, hbeq, ih]

theorem lookup_mapSet_ne (bs : List (String × Bucket)) (k k2 : String) (b : Bucket)
    (h : k2 ≠ k) : (mapSet bs k b).lookup k2 = bs.lookup k2 := by
  induction bs with
  | nil =>
    have hbeq : (k2 == k) = false := beq_eq_false_iff_ne.mpr h
    simp [mapSet, List.lookup, hbeq]
  | cons kv rest ih =>
    obtain ⟨k1, v1⟩ := kv
    by_cases h1 : k1 = k
    · subst h1
      have hbeq : (k2 == k1) = false := beq_eq_false_iff_ne.mpr h
      simp [mapSet, List.lookup, hbeq]
    · cases hk : (k2 == k1) <;> simp [mapSet, h1, List.lookup, hk, ih]

theorem Allow_lookup_ne (rl : RateLimiter) (k k2 : String) (now : Nat) (h : k2 ≠ k) :
    ((Allow rl k now).2).buckets.lookup k2 = rl.buckets.lookup k2 := by
  unfold Allow
  cases hl : rl.buckets.lookup k with
  | none => exact lookup_mapSet_ne rl.buckets k k2 _ h
  | some b =>
    dsimp only
    repeat' split
    all_goals exact lookup_mapSet_ne rl.buckets k k2 _ h

theorem allowRun_lookup_ne (rl : RateLimiter) (k k2 : String) (now : Nat) (n : Nat)
    (h : k2 ≠ k) :
    ((allowRun rl k now n).2).buckets.lookup k2 = rl.buckets.lookup k2 := by
  induction n generalizing rl with
  | zero => simp [allowRun]
  | succ m ih =>
    simp only [allowRun]
    rw [ih]
    exact Allow_lookup_ne rl k k2 now h

/-- Allow on a bucket whose `lastCheck` is the current instant: no
refill happens, and the call consumes one token exactly when the bucket
is nonempty. -/
theorem Allow_same_instant (rl : RateLimiter) (k : String) (t : Nat) (b : Bucket)
    (hl : rl.buckets.lookup k = some b) (hlc : b.lastCheck = t)
    (hcap : b.tokens ≤ (rl.capacity : Int)) :
    Allow rl k t = (decide (0 < b.tokens),
      { rl with buckets :=
          mapSet rl.buckets k ⟨if 0 < b.tokens then b.tokens - 1 else b.tokens, t⟩ }) := by
  unfold Allow
  rw [hl]
  have hnot : ¬ (b.tokens + (((t - b.lastCheck) / rl.interval) * rl.rate : Nat) : Int)
      > (rl.capacity : Int) := by
    rw [hlc]
    simp only [Nat.sub_self, Nat.zero_div, Nat.zero_mul, Nat.cast_zero, add_zero]
    omega
  simp only [hlc, Nat.sub_self, Nat.zero_div, Nat.zero_mul, Nat.cast_zero, add_zero] at hnot ⊢
  rw [if_neg hnot]
  by_cases hb : 0 < b.tokens
  · rw [if_pos hb, if_pos hb]
    simp [hb]
  · rw [if_neg hb, if_neg hb]
    simp [hb]

theorem allowRun_zero (rl : RateLimiter) (k : String) (now : Nat) :
    allowRun rl k now 0 = ([], rl) := rfl

theorem allowRun_succ (rl : RateLimiter) (k : String) (now : Nat) (n : Nat) :
    allowRun rl k now (n + 1)
      = ((Allow rl k now).1 :: (allowRun (Allow rl k now).2 k now n).1,
         (allowRun (Allow rl k now).2 k now n).2) := rfl

/-- A run of `n` same-instant calls on a single-bucket state holding
`tk ≤ capacity` tokens with `n ≤ tk`: every call is allowed and `n`
tokens are consumed. -/
theorem allowRun_consume (rate interval capacity : Nat) (k : String) (t : Nat) :
    ∀ (n : Nat) (tk : Int), tk ≤ (capacity : Int) → (n : Int) ≤ tk →
    allowRun ⟨[(k, ⟨tk, t⟩)], rate, interval, capacity⟩ k t n
      = (List.replicate n true, ⟨[(k, ⟨tk - n, t⟩)], rate, interval, capacity⟩) := by
  intro n
  induction n with
  | zero => intro tk _ _; rw [allowRun_zero]; simp
  | succ m ih =>
    intro tk hcap hn
    have htk : (0 : Int) < tk := by push_cast at hn; omega
    have hl : (⟨[(k, ⟨tk, t⟩)], rate, interval, capacity⟩ : RateLimiter).buckets.lookup k
        = some ⟨tk, t⟩ := by simp [List.lookup]
    rw [allowRun_succ,
      Allow_same_instant ⟨[(k, ⟨tk, t⟩)], rate, interval, capacity⟩ k t ⟨tk, t⟩ hl rfl hcap]
    have hd : decide (0 < tk) = true := by simp [htk]
    have hms : mapSet [(k, ⟨tk, t⟩)] k ⟨tk - 1, t⟩ = [(k, ⟨tk - 1, t⟩)] := by
      simp [mapSet]
    dsimp only
    rw [if_pos htk, hd, hms, ih (tk - 1) (by omega) (by push_cast at hn ⊢; omega)]
    have harith : tk - 1 - (m : Int) = tk - ((m + 1 : Nat) : Int) := by push_cast; ring
    simp [harith, List.replicate_succ]

/-- A run of `1 ≤ n ≤ 2*rate` same-instant calls on a fresh limiter:
all allowed, leaving a single bucket with `2*rate - n` tokens. -/
theorem allowRun_fresh (rate interval : Nat) (k : String) (t : Nat) (n : Nat)
    (hn1 : 1 ≤ n) (hn : n ≤ rate * 2) :
    allowRun (NewRateLimiter rate interval) k t n
      = (List.replicate n true,
         ⟨[(k, ⟨(rate * 2 : Nat) - (n : Int), t⟩)], rate, interval, rate * 2⟩) := by
  cases n with
  | zero => omega
  | succ m =>
    rw [allowRun_succ]
    have hAllow : Allow (NewRateLimiter rate interval) k t
        = (true, ⟨[(k, ⟨((rate * 2 : Nat) : Int) - 1, t⟩)], rate, interval, rate * 2⟩) := by
      simp [Allow, NewRateLimiter, mapSet]
    rw [hAllow]
    dsimp only
    rw [allowRun_consume rate interval (rate * 2) k t m (((rate * 2 : Nat) : Int) - 1)
      (by omega) (by push_cast at hn ⊢; omega)]
    simp [List.replicate_succ]
    omega

/-- Splitting a run of `m + n` calls into a run of `m` followed by a run
of `n` from the intermediate state. -/
theorem allowRun_split (rl : RateLimiter) (k : String) (t : Nat) (m n : Nat) :
    allowRun rl k t (m + n)
      = ((allowRun rl k t m).1 ++ (allowRun (allowRun rl k t m).2 k t n).1,
         (allowRun (allowRun rl k t m).2 k t n).2) := by
  induction m generalizing rl with
  | zero => simp [allowRun_zero]
  | succ p ih =>
    have hpn : p + 1 + n = (p + n) + 1 := by omega
    rw [hpn, allowRun_succ, allowRun_succ, ih]
    simp

/-! ## Claim C1 -/

/-- C1 (code bug): the first revision of ValidateInvite (invite.go lines
64-76) lacks the `max_uses > 0` guard, so on an unexpired invite with
`max_uses = 0` — unlimited, per the schema, handler tests, the spec and
the current revision — it wrongly returns `InviteExhausted` even at
`used_count = 0`, while the current revision (invite.go lines 156-169)
and Register's invite gate (service.go line 120) accept the same invite,
exactly as the claim states. -/
theorem inviteExhaustion_maxUsesZero_bug :
    ValidateInviteV1 inviteStore0 communityStore0 50 "UNLIMITED_CODE"
      = .error .inviteExhausted
  ∧ ValidateInvite inviteStore0 communityStore0 50 "UNLIMITED_CODE"
      = .ok ⟨"community-123", "Test Community"⟩
  ∧ Register regWorld0 50 "newuser@example.com" "SecurePass123" "newuser" "UNLIMITED_CODE"
      = .ok ⟨"user-1", "newuser@example.com", "newuser", "hashed_password", 0⟩ := by
  exact ⟨rfl, rfl, rfl⟩

/-! ## Claim C3 -/

/-- C3 (code bug): Login (service.go lines 218-239) returns
`InvalidCredentials` for an unknown email WITHOUT performing any
password comparison (an empty Compare trace), while the wrong-password
path for an existing user performs one comparison — so the two paths do
NOT perform the same hash-comparison work, contradicting the claim and
the repo's own TestLogin_NonExistentEmail, which pins a Compare call
against a fixed dummy bcrypt hash. -/
theorem login_skips_dummy_compare_bug :
    Login loginWorldNoUser "nonexistent@example.com" "any_password"
      = (.error .invalidCredentials, [])
  ∧ Login loginWorldWrongPw "user@example.com" "wrong_password"
      = (.error .invalidCredentials, [("hashed_password", "wrong_password")])
  ∧ ([] : List (String × String)).length ≠
      [("hashed_password", "wrong_password")].length := by
  exact ⟨rfl, rfl, by decide⟩

/-! ## Claim C5 -/

/-- C5 (code bug): validatePassword (service.go lines 189-194) checks
ONLY the length bound; a password of 8 or more characters with no digit
("OnlyLetters") or no letter ("12345678") passes the password step and
Register proceeds to create the user, although the identity package
declares `ErrPasswordTooWeak` and the repo's own tests
(TestRegister_PasswordNoNumbers, TestRegister_PasswordNoLetters) require
that error. -/
theorem validatePassword_no_strength_check_bug :
    validatePassword "OnlyLetters" = .ok ()
  ∧ validatePassword "12345678" = .ok ()
  ∧ Register regWorld0 50 "newuser@example.com" "OnlyLetters" "newuser" "UNLIMITED_CODE"
      = .ok ⟨"user-1", "newuser@example.com", "newuser", "hashed_password", 0⟩ := by
  exact ⟨rfl, rfl, rfl⟩

/-! ## Claim C10 -/

/-- C10: the first Allow call for a key absent from the bucket map
always returns true and stores a bucket holding `capacity - 1` tokens,
for every construction parameter — including `rate = 0`, where
`capacity = 0` and the fresh bucket holds `-1` tokens. -/
theorem allow_first_call_fresh_key (rl : RateLimiter) (key : String) (now : Nat)
    (h : rl.buckets.lookup key = none) :
    Allow rl key now
      = (true, { rl with buckets := mapSet rl.buckets key ⟨(rl.capacity : Int) - 1, now⟩ })
  ∧ (∀ rate interval : Nat, Allow (NewRateLimiter rate interval) key now
      = (true, ⟨[(key, ⟨((rate * 2 : Nat) : Int) - 1, now⟩)], rate, interval, rate * 2⟩))
  ∧ Allow (NewRateLimiter 0 1) key now = (true, ⟨[(key, ⟨-1, now⟩)], 0, 1, 0⟩) := by
  refine ⟨by simp [Allow, h], fun rate interval => ?_, ?_⟩
  · simp [Allow, NewRateLimiter, mapSet]
  · simp [Allow, NewRateLimiter, mapSet]

/-- Witness for C10 at a concrete fresh key, rate 0 and instant 42. -/
theorem allow_first_call_fresh_key_witness :
    Allow (NewRateLimiter 0 1) "203.0.113.7" 42
      = (true, ⟨[("203.0.113.7", ⟨-1, 42⟩)], 0, 1, 0⟩) :=
  (allow_first_call_fresh_key (NewRateLimiter 5 60) "203.0.113.7" 42 rfl).2.2

/-! ## Claim C8 -/

/-- C8 (counterexample): the cleanup sweep's threshold is a hard-coded
ten minutes, not ten times the configured interval. On a limiter with a
one-hour interval, a bucket idle for twenty minutes — far below
10 x interval = 10 hours — is removed by the sweep. -/
theorem cleanupSweep_tenMinutes_refuted :
    cleanupSweep hourLimiterIdle (20 * nsPerMinute) = ⟨[], 5, nsPerHour, 10⟩
  ∧ 20 * nsPerMinute - 0 ≤ 10 * hourLimiterIdle.interval := by
  exact ⟨by decide, by decide⟩

/-- C8 (amended): the periodic sweep keeps exactly the buckets whose
idle time is at most the FIXED ten minutes (`10 * time.Minute`),
whatever the limiter's configured interval; this coincides with
10 x interval only for one-minute limiters. -/
theorem cleanupSweep_membership_amended (rl : RateLimiter) (now : Nat)
    (kb : String × Bucket) :
    kb ∈ (cleanupSweep rl now).buckets ↔
      kb ∈ rl.buckets ∧ now - kb.2.lastCheck ≤ 10 * nsPerMinute := by
  simp [cleanupSweep, List.mem_filter]

/-! ## Claim C2 -/

/-- C2: RefreshTokens (service.go lines 241-272) implements rotate-on-
use: a token the store reports revoked is rejected with `TokenRevoked`;
a successful refresh has revoked the presented token in the resulting
store, so replaying it fails with `TokenRevoked`; and when revocation
itself fails the call errors without issuing tokens and without
changing the store. -/
theorem refreshTokens_rotation (w : RefreshWorld) (st : RefreshStore) (tok : String) :
    (st.isRevokedErr = none → tok ∈ st.revoked →
      (∃ u, w.validateRefreshToken tok = .ok u) →
      RefreshTokens w st tok = (.error .tokenRevoked, st))
  ∧ (∀ resp st2, RefreshTokens w st tok = (.ok resp, st2) →
      tok ∈ st2.revoked ∧
      (RefreshTokens w st2 tok).1 = .error .tokenRevoked)
  ∧ (∀ u e, w.validateRefreshToken tok = .ok u → st.isRevokedErr = none →
      tok ∉ st.revoked → st.revokeErr = some e →
      RefreshTokens w st tok = (.error (.wrapped "failed to revoke old token" e), st)) := by
  refine ⟨?_, ?_, ?_⟩
  · rintro h1 h2 ⟨u, hu⟩
    simp [RefreshTokens, hu, isRevokedOp, h1, h2]
  · intro resp st2 h
    cases hv : w.validateRefreshToken tok with
    | error e => simp [RefreshTokens, hv] at h
    | ok u =>
      cases hre : st.isRevokedErr with
      | some e => simp [RefreshTokens, hv, isRevokedOp, hre] at h
      | none =>
        by_cases hc : tok ∈ st.revoked
        · simp [RefreshTokens, hv, isRevokedOp, hre, hc] at h
        · cases hrv : st.revokeErr with
          | some e => simp [RefreshTokens, hv, isRevokedOp, revokeOp, hre, hc, hrv] at h
          | none =>
            cases hga : w.genAccess u with
            | error e =>
              simp [RefreshTokens, hv, isRevokedOp, revokeOp, hre, hc, hrv, hga] at h
            | ok a =>
              cases hgr : w.genRefresh u with
              | error e =>
                simp [RefreshTokens, hv, isRevokedOp, revokeOp, hre, hc, hrv, hga, hgr] at h
              | ok r =>
                simp [RefreshTokens, hv, isRevokedOp, revokeOp, hre, hc, hrv, hga, hgr,
                  Prod.mk.injEq, Except.ok.injEq] at h
                obtain ⟨-, hst2⟩ := h
                subst hst2
                refine ⟨List.mem_cons_self tok st.revoked, ?_⟩
                simp [RefreshTokens, hv, isRevokedOp]
  · intro u e hu h1 hc hrv
    simp [RefreshTokens, hu, isRevokedOp, h1, hc, revokeOp, hrv]

/-- Witness for C2: a concrete replay fails with TokenRevoked, and a
concrete revocation failure aborts the refresh with a wrapped error and
an unchanged store. -/
theorem refreshTokens_rotation_witness :
    (RefreshTokens refreshWorld0 (⟨["rt1"], none, none⟩ : RefreshStore) "rt1").1
      = .error .tokenRevoked
  ∧ RefreshTokens refreshWorld0 refreshStoreRevokeFail "rt1"
      = (.error (.wrapped "failed to revoke old token" .storeUnreachable),
         refreshStoreRevokeFail) := by
  have h1 := (refreshTokens_rotation refreshWorld0 refreshStore0 "rt1").2.1
    ⟨"new_access_token", "new_refresh_token"⟩ ⟨["rt1"], none, none⟩ rfl
  have h2 := (refreshTokens_rotation refreshWorld0 refreshStoreRevokeFail "rt1").2.2
    "user-123" .storeUnreachable rfl rfl (by decide) rfl
  exact ⟨h1.2, h2⟩

/-! ## Claim C6 -/

/-- C6: RecordReputationEvent de-duplicates on non-empty reference ids:
a fresh `(user, eventType, refID)` triple is appended and scores one
application of the points; the identical second call fails with
`DuplicateEvent`, appending nothing; and with an empty refID no
duplicate check is performed — the event is appended unconditionally. -/
theorem recordReputationEvent_dedup (st : RepStore) (caller target ty : String)
    (pts : Int) (ref : String) (hself : caller ≠ target)
    (hv : ValidateReputationEvent ty pts = .ok ())
    (href : ref ≠ "")
    (hfresh : HasRecordedEvent st target ty ref = false) :
    RecordReputationEvent st caller target ty pts ref
      = (.ok (), st ++ [⟨target, ty, pts, ref⟩])
  ∧ RecordReputationEvent (st ++ [⟨target, ty, pts, ref⟩]) caller target ty pts ref
      = (.error .duplicateEvent, st ++ [⟨target, ty, pts, ref⟩])
  ∧ GetReputation (st ++ [⟨target, ty, pts, ref⟩]) target = GetReputation st target + pts
  ∧ (∀ st2 : RepStore, RecordReputationEvent st2 caller target ty pts ""
      = (.ok (), st2 ++ [⟨target, ty, pts, ""⟩])) := by
  refine ⟨?_, ?_, ?_, ?_⟩
  · simp [RecordReputationEvent, hv, hself, href, hfresh]
  · have hdup : HasRecordedEvent (st ++ [⟨target, ty, pts, ref⟩]) target ty ref = true := by
      simp [HasRecordedEvent, List.any_append]
    simp [RecordReputationEvent, hv, hself, href, hdup]
  · simp [GetReputation, List.filter_append, List.foldl_append]
  · intro st2
    simp [RecordReputationEvent, hv, hself]

/-- Witness for C6 at a concrete triple on the empty ledger. -/
theorem recordReputationEvent_dedup_witness :
    RecordReputationEvent [] "caller-1" "user-1" "message_posted" 3 "msg-1"
      = (.ok (), [⟨"user-1", "message_posted", 3, "msg-1"⟩])
  ∧ RecordReputationEvent [⟨"user-1", "message_posted", 3, "msg-1"⟩]
      "caller-1" "user-1" "message_posted" 3 "msg-1"
      = (.error .duplicateEvent, [⟨"user-1", "message_posted", 3, "msg-1"⟩])
  ∧ GetReputation [⟨"user-1", "message_posted", 3, "msg-1"⟩] "user-1"
      = GetReputation [] "user-1" + 3 := by
  have h := recordReputationEvent_dedup [] "caller-1" "user-1" "message_posted" 3 "msg-1"
    (by decide) rfl (by decide) rfl
  exact ⟨h.1, h.2.1, h.2.2.1⟩

/-! ## Claim C9 -/

/-- C9 (counterexample): with BOTH user-store lookups failing for an
infrastructure reason (store unreachable), Register does not return a
wrapped error — it treats the email and handle as available and
proceeds to create the user, returning success. -/
theorem register_masks_store_errors_refuted :
    Register regWorldUnreachable 50 "newuser@example.com" "SecurePass123" "newuser"
      "LIMITED_CODE"
      = .ok ⟨"user-9", "newuser@example.com", "newuser", "hashed_password", 0⟩
  ∧ regWorldUnreachable.findByEmail "newuser@example.com" = .error .storeUnreachable
  ∧ regWorldUnreachable.findByHandle "newuser" = .error .storeUnreachable := by
  exact ⟨rfl, rfl, rfl⟩

/-- C9 (amended): Register swallows every failure of the uniqueness
lookups — a FindByEmail error means "email free" and a FindByHandle
error means "handle available" — and proceeds; wrapped errors are
propagated only from the password hasher and from user creation. -/
theorem register_uniqueness_error_handling_amended
    (w : RegisterWorld) (now : Int) (email password handle code : String)
    (inv : Invite) (e1 e2 : Err)
    (hinv : w.findInviteByCode code = .ok inv)
    (hexp : ¬ now > inv.expiresAt)
    (hexh : ¬ (inv.maxUses > 0 ∧ inv.usedCount ≥ inv.maxUses))
    (hem : validateEmail email = .ok ())
    (hpw : validatePassword password = .ok ())
    (hh : validateHandle handle = .ok ())
    (hfe : w.findByEmail email = .error e1)
    (hfh : w.findByHandle handle = .error e2) :
    (∀ he, w.hash password = .error he →
      Register w now email password handle code
        = .error (.wrapped "failed to hash password" he))
  ∧ (∀ hp ce, w.hash password = .ok hp →
      w.createUser ⟨w.newID, email, handle, hp, 0⟩ = .error ce →
      Register w now email password handle code
        = .error (.wrapped "failed to create user" ce))
  ∧ (∀ hp, w.hash password = .ok hp →
      w.createUser ⟨w.newID, email, handle, hp, 0⟩ = .ok () →
      Register w now email password handle code
        = .ok ⟨w.newID, email, handle, hp, 0⟩) := by
  refine ⟨?_, ?_, ?_⟩
  · intro he hhe
    simp [Register, isHandleAvailable, hinv, hexp, hexh, hem, hpw, hh, hfe, hfh, hhe]
  · intro hp ce hhp hce
    simp [Register, isHandleAvailable, hinv, hexp, hexh, hem, hpw, hh, hfe, hfh, hhp, hce]
  · intro hp hhp hcu
    cases hiu : w.incrementUsage code with
    | error e =>
      simp [Register, isHandleAvailable, hinv, hexp, hexh, hem, hpw, hh, hfe, hfh, hhp,
        hcu, hiu]
    | ok u =>
      simp [Register, isHandleAvailable, hinv, hexp, hexh, hem, hpw, hh, hfe, hfh, hhp,
        hcu, hiu]

/-- Witness for the amended C9: with the user store unreachable AND the
hasher failing, Register fails with the wrapped hashing error (not with
a uniqueness-check error). -/
theorem register_uniqueness_error_handling_amended_witness :
    Register regWorldHashFail 50 "newuser@example.com" "SecurePass123" "newuser"
      "LIMITED_CODE"
      = .error (.wrapped "failed to hash password" .storeUnreachable) := by
  have h := register_uniqueness_error_handling_amended regWorldHashFail 50
    "newuser@example.com" "SecurePass123" "newuser" "LIMITED_CODE" limitedInvite
    .storeUnreachable .storeUnreachable rfl (by decide) (by decide) rfl rfl rfl rfl rfl
  exact h.1 .storeUnreachable rfl

/-! ## Claim C4 -/

/-- C4 (counterexample): a structurally valid, correctly signed,
unexpired token that merely lacks the `user_id` claim is rejected with
the DISTINCT error "invalid user_id claim" — an error outside the two
classes TokenExpired and TokenInvalid, revealing which structural check
failed. -/
theorem validateToken_two_error_classes_refuted :
    ValidateToken signedNoUserId = .error .invalidUserIdClaim
  ∧ JWTErr.invalidUserIdClaim ≠ JWTErr.tokenExpired
  ∧ JWTErr.invalidUserIdClaim ≠ JWTErr.tokenInvalid := by
  exact ⟨rfl, by decide, by decide⟩

/-- C4 (amended): ValidateToken fails with "token expired" exactly when
the token parses, the algorithm is HMAC, the signature verifies, the
exp claim decodes and has passed; parse/algorithm/signature failures
give "invalid token"; but the claim-extraction stage returns its own
distinct errors — in particular a missing or empty-string `user_id` on
an otherwise valid token gives "invalid user_id claim" — so the error
set has six classes, not two. -/
theorem validateToken_error_classes_amended (t : TokenData) :
    (ValidateToken t = .error .tokenExpired ↔
      (t.wellFormed = true ∧ t.algIsHMAC = true ∧ t.signatureValid = true ∧
        t.expValid = true ∧ t.expired = true))
  ∧ ((t.wellFormed = false ∨ t.algIsHMAC = false ∨ t.signatureValid = false) →
      ValidateToken t = .error .tokenInvalid)
  ∧ (ValidateToken t = .error .invalidUserIdClaim ↔
      (t.wellFormed = true ∧ t.algIsHMAC = true ∧ t.signatureValid = true ∧
        t.expValid = true ∧ t.expired = false ∧ t.notYetValid = false ∧
        t.claimsAreMap = true ∧
        (t.userIdString = none ∨ t.userIdString = some ""))) := by
  obtain ⟨wf, alg, sig, ev, ex, nyv, cm, uid, iatv, e, i, j⟩ := t
  rcases uid with _ | u <;>
    cases wf <;> cases alg <;> cases sig <;> cases ev <;> cases ex <;> cases nyv <;>
    cases cm <;> cases iatv <;>
    simp [ValidateToken] <;> split <;> simp

/-- Witness for the amended C4 at two concrete tokens: a malformed one
collapses to "invalid token", and a signed token without `user_id`
yields the distinct claim error. -/
theorem validateToken_error_classes_amended_witness :
    ValidateToken malformedToken = .error .tokenInvalid
  ∧ ValidateToken signedNoUserId = .error .invalidUserIdClaim := by
  have h1 := validateToken_error_classes_amended malformedToken
  have h2 := validateToken_error_classes_amended signedNoUserId
  exact ⟨h1.2.1 (Or.inl rfl), h2.2.2.mpr (by decide)⟩

/-! ## Claim C7 -/

/-- C7: a limiter built with rate `r ≥ 1` has capacity `2r`; on a fresh
key, `2r` consecutive same-instant Allow calls all succeed and call
`2r+1` is denied; a key never seen before is admitted regardless of
another key's exhaustion; and on an existing bucket a call is allowed
exactly when `min(tokens + floor(elapsed/interval)*rate, capacity)` is
positive — the refill is `floor(elapsed/interval)*rate`, capped at
capacity. -/
theorem rateLimiter_burst (r i : Nat) (hr : 1 ≤ r) (k k2 : String) (hk : k2 ≠ k)
    (t t2 n : Nat) :
    (NewRateLimiter r i).capacity = 2 * r
  ∧ (allowRun (NewRateLimiter r i) k t (2 * r + 1)).1
      = List.replicate (2 * r) true ++ [false]
  ∧ (Allow ((allowRun (NewRateLimiter r i) k t n).2) k2 t2).1 = true
  ∧ (∀ (rl : RateLimiter) (b : Bucket), rl.buckets.lookup k = some b →
      ((Allow rl k t).1 = true ↔
        0 < min (b.tokens + (((t - b.lastCheck) / rl.interval) * rl.rate : Nat))
          (rl.capacity : Int))) := by
  refine ⟨by simp [NewRateLimiter, Nat.mul_comm], ?_, ?_, ?_⟩
  · rw [allowRun_split (NewRateLimiter r i) k t (2 * r) 1]
    rw [allowRun_fresh r i k t (2 * r) (by omega) (by omega)]
    have hX : ((r * 2 : Nat) : Int) - ((2 * r : Nat) : Int) = 0 := by push_cast; ring
    simp only [hX]
    have hl : ((⟨[(k, ⟨0, t⟩)], r, i, r * 2⟩ : RateLimiter).buckets).lookup k
        = some ⟨0, t⟩ := by simp [List.lookup]
    rw [allowRun_succ, allowRun_zero,
      Allow_same_instant ⟨[(k, ⟨0, t⟩)], r, i, r * 2⟩ k t ⟨0, t⟩ hl rfl (by push_cast; omega)]
    simp [List.replicate_succ]
  · have hlk : ((allowRun (NewRateLimiter r i) k t n).2).buckets.lookup k2 = none := by
      rw [allowRun_lookup_ne _ _ _ _ _ hk]
      simp [NewRateLimiter, List.lookup]
    simp [Allow, hlk]
  · intro rl b hl
    unfold Allow
    rw [hl]
    dsimp only
    generalize (((t - b.lastCheck) / rl.interval) * rl.rate : Nat) = a
    split_ifs with h1 h2 h3 <;> simp <;> omega

/-- Witness for C7 with rate 3: six same-instant calls for key "a"
succeed, the seventh is denied, and key "b" is still admitted. -/
theorem rateLimiter_burst_witness :
    (allowRun (NewRateLimiter 3 60) "a" 0 7).1 = List.replicate 6 true ++ [false]
  ∧ (Allow ((allowRun (NewRateLimiter 3 60) "a" 0 7).2) "b" 0).1 = true := by
  have h := rateLimiter_burst 3 60 (by decide) "a" "b" (by decide) 0 0 7
  exact ⟨h.2.1, h.2.2.1⟩

end CommComms
